import Mathlib

/-! Shallow embedding of src/server.js (Rovo MCP Gateway).

The gateway is a single Express application: two health routes registered
first, then a static-bearer auth middleware consulting isOpenPath, then the
GET /login-link handler, then proxy middleware forwarding everything else to
the spawned mcp-remote child process.  Configuration is read from the
environment at startup; the child processes stdout and stderr are scraped
for the latest login URL.  Each definition below mirrors one piece of that
file; environment access is modelled as a function from variable names to
optional string values, and the wall clock as an explicit timestamp
argument. -/

namespace RovoGateway

/-- JavaScript truthiness on an optional string: undefined/null and the empty
string are falsy.  Used by requireEnv (the source tests if not v) and by the
env-var fallback chains written with the JavaScript or-operator. -/
def jsOr (v : Option String) (fallback : String) : String :=
  match v with
  | some s => if s == "" then fallback else s
  | none => fallback

/-- Mirrors function requireEnv(name) in server.js: returns the value of the
environment variable, or throws (modelled as Except.error) when it is absent
or empty, with the message the source builds. -/
def requireEnv (env : String → Option String) (name : String) : Except String String :=
  match env name with
  | some v => if v == "" then .error ("Missing required env var: " ++ name) else .ok v
  | none => .error ("Missing required env var: " ++ name)

/-- Mirrors the const ROVO_MCP_URL initializer in server.js:
process.env.ROVO_MCP_URL, falling back to the backward-compatible
process.env.ROVO_MCP_SSE_URL, falling back to a hard-coded default. -/
def ROVO_MCP_URL (env : String → Option String) : String :=
  jsOr (env "ROVO_MCP_URL") (jsOr (env "ROVO_MCP_SSE_URL") "https://mcp.atlassian.com/v1/mcp")

/-- The startup configuration of server.js.  The two port values are kept as
the pre-parseInt strings, since no behaviour modelled here depends on their
numeric parsing. -/
structure Config where
  publicBaseUrl : String
  staticBearerToken : String
  port : String
  mcpRemotePort : String
  rovoMcpUrl : String
deriving DecidableEq

/-- The top-level const initializers of server.js, in source order: the two
requireEnv calls throw (error) before anything listens; the remaining values
have defaults. -/
def loadConfig (env : String → Option String) : Except String Config :=
  match requireEnv env "PUBLIC_BASE_URL" with
  | .error e => .error e
  | .ok pbu =>
    match requireEnv env "STATIC_BEARER_TOKEN" with
    | .error e => .error e
    | .ok tok =>
      .ok { publicBaseUrl := pbu, staticBearerToken := tok,
            port := jsOr (env "PORT") "8080",
            mcpRemotePort := jsOr (env "MCP_REMOTE_PORT") "9696",
            rovoMcpUrl := ROVO_MCP_URL env }

/-- Models the JavaScript string method startsWith, computed on the character
list so that concrete instances reduce definitionally. -/
def startsWithStr (s pre : String) : Bool :=
  pre.data.isPrefixOf s.data

/-- Mirrors const OPEN_PATHS_EXACT in server.js (a Set of three literal
callback paths; note the health path is NOT a member in this version of the
file). -/
def OPEN_PATHS_EXACT : List String :=
  ["/oauth/callback", "/auth/callback", "/callback"]

/-- Mirrors function isOpenPath(path) in server.js. -/
def isOpenPath (path : String) : Bool :=
  if OPEN_PATHS_EXACT.contains path then true
  else if startsWithStr path "/oauth/" then true
  else if startsWithStr path "/auth/" then true
  else false

/-- The fixed open set exactly as the specification enumerates it for this
file: the health path and its trailing-slash variant, the oauth/auth
prefixes, and the exact callback paths (the version path is not present in
server.js).  This definition follows the spec wording, to be compared with
the source-derived isOpenPath and request pipeline. -/
def specOpenSet (p : String) : Bool :=
  p == "/healthz" || p == "/healthz/" ||
  p == "/oauth/callback" || p == "/auth/callback" || p == "/callback" ||
  startsWithStr p "/oauth/" || startsWithStr p "/auth/"

/-- Membership of the JavaScript regex whitespace class: the characters the
scraper treats as terminating a URL besides the closing delimiters. -/
def isJsWhitespace (c : Char) : Bool :=
  c == ' ' || c == '\t' || c == '\n' || c == '\r' ||
  c.toNat == 11 || c.toNat == 12 || c.toNat == 0xa0 || c.toNat == 0x1680 ||
  (decide (0x2000 ≤ c.toNat) && decide (c.toNat ≤ 0x200a)) ||
  c.toNat == 0x2028 || c.toNat == 0x2029 || c.toNat == 0x202f ||
  c.toNat == 0x205f || c.toNat == 0x3000 || c.toNat == 0xfeff

/-- A character the scraper regex allows inside a URL: anything that is
neither whitespace nor a double quote, single quote, closing parenthesis or
closing square bracket (the negated character class of the regex in
extractUrls). -/
def isUrlChar (c : Char) : Bool :=
  !(isJsWhitespace c || c == '"' || c == '\'' || c == ')' || c == ']')

/-- After a scheme prefix has matched, the regex greedily takes one or more
URL characters; with none available the whole match attempt at this position
fails. -/
def mkUrlMatch (pre r : List Char) : Option (List Char × List Char) :=
  if r.takeWhile isUrlChar = [] then none
  else some (pre ++ r.takeWhile isUrlChar, r.dropWhile isUrlChar)

/-- One attempt of the scraper regex at the head of the text: the literal
scheme https (preferred, as the optional s is greedy) or http, then the
separator, then the greedy character class.  Returns the match and the rest
of the text after it, or none when no match starts here. -/
def matchUrlAt (l : List Char) : Option (List Char × List Char) :=
  if l.take 8 = "https://".data then mkUrlMatch "https://".data (l.drop 8)
  else if l.take 7 = "http://".data then mkUrlMatch "http://".data (l.drop 7)
  else none

/-- The global scan of the scraper regex: at each position try to match;
on success emit the match and resume after it, otherwise advance one
character.  The fuel argument is an upper bound on the remaining text length
(every step consumes at least one character), making the recursion
structural. -/
def scanUrlsFuel : Nat → List Char → List (List Char)
  | 0, _ => []
  | _ + 1, [] => []
  | fuel + 1, c :: cs =>
    match matchUrlAt (c :: cs) with
    | some (m, rest) => m :: scanUrlsFuel fuel rest
    | none => scanUrlsFuel fuel cs

/-- Mirrors function extractUrls(text) in server.js: all matches of the
scraper regex in order of appearance, or the empty list when there is none. -/
def extractUrls (text : String) : List String :=
  (scanUrlsFuel text.data.length text.data).map (fun cs => String.mk cs)

/-- The two module-level mutable bindings latestLoginUrl and
latestLoginUrlSeenAt of server.js, both initially null. -/
structure LoginState where
  latestLoginUrl : Option String
  latestLoginUrlSeenAt : Option String
deriving DecidableEq

/-- The state at startup: both bindings null. -/
def initialLoginState : LoginState := ⟨none, none⟩

/-- Mirrors the capture callback in startMcpRemote: when the chunk yields at
least one URL, keep the last one together with the current timestamp (passed
here explicitly in place of new Date().toISOString()); otherwise leave the
state untouched. -/
def capture (now : String) (st : LoginState) (chunk : String) : LoginState :=
  match (extractUrls chunk).getLast? with
  | some u => { latestLoginUrl := some u, latestLoginUrlSeenAt := some now }
  | none => st

/-- A sequence of output chunks (each with the timestamp at which it
arrives) fed through the capture callback in order. -/
def processChunks (st : LoginState) (chunks : List (String × String)) : LoginState :=
  chunks.foldl (fun s nc => capture nc.1 s nc.2) st

/-- The coupling invariant of the two cache bindings: the URL is null
exactly when the timestamp is null (they are only ever assigned together in
the capture callback). -/
def LoginStateInv (st : LoginState) : Prop :=
  st.latestLoginUrl = none ↔ st.latestLoginUrlSeenAt = none

/-- An inbound HTTP request as the modelled middleware sees it: method,
path, and the optional Authorization header. -/
structure Request where
  method : String
  path : String
  authorization : Option String
deriving DecidableEq

/-- The responses the modelled pipeline of server.js can produce.  okHealth
is the 200 body with the ok field true; unauthorized is the 401 JSON body
with its error field; notFound is the 404 JSON body with error and hint
fields; loginLink is the 200 JSON body with login_url and seen_at fields;
proxied stands for forwarding to the local mcp-remote port. -/
inductive Response where
  | okHealth : Response
  | unauthorized : String → Response
  | notFound : String → String → Response
  | loginLink : String → Option String → Response
  | proxied : Response
deriving DecidableEq

/-- The expected Authorization header value built in the auth middleware:
the template literal Bearer followed by the static token. -/
def expectedAuth (token : String) : String := "Bearer " ++ token

/-- Mirrors the GET /login-link handler body: the falsy test on
latestLoginUrl selects the 404 with the hint, otherwise the URL and its
timestamp are returned verbatim. -/
def loginLinkResponse (st : LoginState) : Response :=
  match st.latestLoginUrl with
  | none => .notFound "No login link captured yet."
      "Trigger an MCP connection attempt (call /mcp with your static bearer token), then retry /login-link."
  | some u =>
    if u == "" then .notFound "No login link captured yet."
      "Trigger an MCP connection attempt (call /mcp with your static bearer token), then retry /login-link."
    else .loginLink u st.latestLoginUrlSeenAt

/-- The routes registered after the auth middleware, in source order: the
GET /login-link handler, then the proxy middleware (both the /mcp mount and
the catch-all root mount forward to the local upstream port). -/
def dispatch (st : LoginState) (req : Request) : Response :=
  if req.method == "GET" && req.path == "/login-link" then loginLinkResponse st
  else .proxied

/-- The full request pipeline of server.js, in registration order: the two
health routes (app.get matches the GET method only), then the auth
middleware (open paths pass through; otherwise the Authorization header,
absent read as the empty string, must equal the expected value exactly or
the request is rejected with 401), then the remaining handlers. -/
def handle (token : String) (st : LoginState) (req : Request) : Response :=
  if req.method == "GET" && (req.path == "/healthz" || req.path == "/healthz/") then .okHealth
  else if isOpenPath req.path then dispatch st req
  else if (req.authorization.getD "") == expectedAuth token then dispatch st req
  else .unauthorized "Unauthorized"

/-- The gateway process phases relevant to the child-exit policy: running,
or exited with a status code. -/
inductive GatewayPhase where
  | running : GatewayPhase
  | exited : Int → GatewayPhase
deriving DecidableEq

/-- Mirrors the child.on exit handler: process.exit with the child exit
code, or 1 when the code is null (the nullish-coalescing default). -/
def onChildExit (code : Option Int) : GatewayPhase :=
  .exited (code.getD 1)

/-- Whether a gateway in the given phase still serves requests: only a
running process does; process.exit ends the event loop. -/
def servesRequests : GatewayPhase → Bool
  | .running => true
  | .exited _ => false

/-- The console.error line the exit handler prints, with null rendered the
way JavaScript template literals render it. -/
def exitLog (code : Option Int) : String :=
  "mcp-remote exited with code " ++ (match code with | some c => toString c | none => "null")

/-- An environment with the two genuinely required variables set but neither
of the upstream URL variables present; concrete input for the configuration
claims. -/
def envMissingUrl : String → Option String :=
  fun name =>
    if name == "PUBLIC_BASE_URL" then some "https://rovo-gateway.onrender.com"
    else if name == "STATIC_BEARER_TOKEN" then some "secret" else none

/-! Helper lemmas shared by the claim theorems. -/

/-- Any path accepted by the code classifier lies in the open set the
specification enumerates (the converse fails at the health paths). -/
theorem specOpenSet_of_isOpenPath (p : String) (h : isOpenPath p = true) :
    specOpenSet p = true := by
  unfold isOpenPath at h
  unfold specOpenSet
  split_ifs at h <;> simp_all [OPEN_PATHS_EXACT, List.contains, List.elem_iff]
  all_goals tauto

/-- The login-link handler never produces the 401 response. -/
theorem loginLinkResponse_ne_unauthorized (st : LoginState) (e : String) :
    loginLinkResponse st ≠ Response.unauthorized e := by
  unfold loginLinkResponse
  split
  · simp
  · split <;> simp

/-- The handlers behind the auth middleware never produce the 401 response;
only the middleware itself does. -/
theorem dispatch_ne_unauthorized (st : LoginState) (req : Request) (e : String) :
    dispatch st req ≠ Response.unauthorized e := by
  unfold dispatch
  split
  · exact loginLinkResponse_ne_unauthorized st e
  · simp

/-- The capture callback leaves the state untouched on a chunk without any
URL. -/
theorem capture_of_no_url (now : String) (st : LoginState) (chunk : String)
    (h : extractUrls chunk = []) : capture now st chunk = st := by
  simp [capture, h]

/-- Feeding any sequence of URL-free chunks leaves the state untouched. -/
theorem processChunks_no_url (st : LoginState) (l : List (String × String))
    (h : ∀ x ∈ l, extractUrls x.2 = []) : processChunks st l = st := by
  induction l generalizing st with
  | nil => rfl
  | cons x xs ih =>
    unfold processChunks at *
    simp only [List.foldl_cons]
    rw [capture_of_no_url _ _ _ (h x (by simp))]
    exact ih st (fun y hy => h y (by simp [hy]))

/-- A character list is a Boolean prefix of itself followed by anything. -/
theorem isPrefixOf_append_self (l r : List Char) : l.isPrefixOf (l ++ r) = true := by
  induction l with
  | nil => simp [List.isPrefixOf]
  | cons a l ih => simp [List.isPrefixOf, ih]

/-- Shape of a successful greedy body match: the match is the scheme
followed by the maximal nonempty run of URL characters. -/
theorem mkUrlMatch_eq_some {pre r m rest : List Char}
    (h : mkUrlMatch pre r = some (m, rest)) :
    m = pre ++ r.takeWhile isUrlChar ∧ r.takeWhile isUrlChar ≠ [] := by
  unfold mkUrlMatch at h
  split_ifs at h with hw
  simp only [Option.some.injEq, Prod.mk.injEq] at h
  exact ⟨h.1.symm, hw⟩

/-- Shape of a successful match attempt: a scheme prefix followed by a
nonempty body of URL characters. -/
theorem matchUrlAt_eq_some {l m rest : List Char} (h : matchUrlAt l = some (m, rest)) :
    ∃ body, body ≠ [] ∧ (∀ c ∈ body, isUrlChar c = true) ∧
      (m = "http://".data ++ body ∨ m = "https://".data ++ body) := by
  unfold matchUrlAt at h
  split_ifs at h with h8 h7
  · obtain ⟨hm, hne⟩ := mkUrlMatch_eq_some h
    exact ⟨_, hne, fun c hc => List.mem_takeWhile_imp hc, Or.inr hm⟩
  · obtain ⟨hm, hne⟩ := mkUrlMatch_eq_some h
    exact ⟨_, hne, fun c hc => List.mem_takeWhile_imp hc, Or.inl hm⟩

/-- Every match emitted by the scan has the scheme-plus-body shape,
whatever the fuel. -/
theorem scanUrlsFuel_shape : ∀ (fuel : Nat) (l m : List Char),
    m ∈ scanUrlsFuel fuel l →
    ∃ body, body ≠ [] ∧ (∀ c ∈ body, isUrlChar c = true) ∧
      (m = "http://".data ++ body ∨ m = "https://".data ++ body) := by
  intro fuel
  induction fuel with
  | zero => intro l m h; simp [scanUrlsFuel] at h
  | succ n ih =>
    intro l m h
    match l with
    | [] => simp [scanUrlsFuel] at h
    | c :: cs =>
      rw [scanUrlsFuel] at h
      cases hma : matchUrlAt (c :: cs) with
      | some pr =>
        obtain ⟨m', rest⟩ := pr
        rw [hma] at h
        simp only [List.mem_cons] at h
        rcases h with h | h
        · subst h; exact matchUrlAt_eq_some hma
        · exact ih rest m h
      | none =>
        rw [hma] at h
        exact ih cs m h

/-! The claim theorems. -/

/-- Counterexample for claim C1: the health path is in the fixed open set
the specification describes, yet isOpenPath rejects it, and a POST request
to it without an Authorization header receives the 401 response (the two
app.get health routes catch only GET requests). -/
theorem health_path_open_counterexample :
    specOpenSet "/healthz" = true ∧ isOpenPath "/healthz" = false ∧
      handle "secret" initialLoginState ⟨"POST", "/healthz", none⟩ =
        Response.unauthorized "Unauthorized" :=
  ⟨rfl, rfl, rfl⟩

/-- Claim C1 (amended): requests to paths the classifier accepts never
receive 401 for any method or Authorization header; GET requests to the
health paths never receive 401 either, because their routes are registered
before the auth middleware, although isOpenPath itself returns false on
them; and the classifier accepts exactly the oauth/auth-prefixed paths and
the exact callback paths. -/
theorem open_paths_never_unauthorized (token : String) (st : LoginState)
    (m p : String) (a : Option String) :
    (isOpenPath p = true → ∀ e, handle token st ⟨m, p, a⟩ ≠ Response.unauthorized e)
    ∧ (m = "GET" → (p = "/healthz" ∨ p = "/healthz/") →
        ∀ e, handle token st ⟨m, p, a⟩ ≠ Response.unauthorized e)
    ∧ ((startsWithStr p "/oauth/" = true ∨ startsWithStr p "/auth/" = true ∨
        p ∈ OPEN_PATHS_EXACT) → isOpenPath p = true)
    ∧ ((p = "/healthz" ∨ p = "/healthz/") → isOpenPath p = false) := by
  refine ⟨?_, ?_, ?_, ?_⟩
  · intro hopen e
    unfold handle
    split_ifs with h1
    all_goals first
      | exact dispatch_ne_unauthorized st _ e
      | simp
  · intro hm hp e
    unfold handle
    rw [if_pos (by rcases hp with h | h <;> simp [hm, h])]
    simp
  · intro h
    unfold isOpenPath
    split_ifs with h1 h2 h3
    · rfl
    · rfl
    · rfl
    · rcases h with h | h | h
      · exact absurd h (by simp [h2])
      · exact absurd h (by simp [h3])
      · exact absurd h (by simp_all [List.contains, List.elem_iff])
  · rintro (h | h) <;> subst h <;> decide

/-- Witness for claim C1: a GET health request with no header is not
rejected, and the oauth callback path is accepted by the classifier. -/
theorem open_paths_never_unauthorized_witness :
    handle "secret" initialLoginState ⟨"GET", "/healthz", none⟩ ≠
        Response.unauthorized "Unauthorized"
    ∧ isOpenPath "/oauth/callback" = true :=
  ⟨(open_paths_never_unauthorized "secret" initialLoginState "GET" "/healthz" none).2.1
      rfl (Or.inl rfl) "Unauthorized",
   (open_paths_never_unauthorized "secret" initialLoginState "GET" "/oauth/callback" none).2.2.1
      (Or.inl (by decide))⟩

/-- Claim C2: for every request whose path is outside the fixed open set,
the pipeline answers 401 (a JSON body with an error field) exactly when the
Authorization header, with an absent header read as the empty string, is
not literally the string Bearer followed by the token; on an exact match
the request reaches the handlers and proxy behind the middleware. -/
theorem closed_path_auth_gate (token : String) (st : LoginState) (m p : String)
    (a : Option String) (hp : specOpenSet p = false) :
    (handle token st ⟨m, p, a⟩ = Response.unauthorized "Unauthorized" ↔
      a.getD "" ≠ expectedAuth token)
    ∧ (a.getD "" = expectedAuth token →
        handle token st ⟨m, p, a⟩ = dispatch st ⟨m, p, a⟩) := by
  have hopen : isOpenPath p = false := by
    cases h : isOpenPath p
    · rfl
    · exact absurd (specOpenSet_of_isOpenPath p h) (by simp [hp])
  unfold specOpenSet at hp
  simp only [Bool.or_eq_false_iff, beq_eq_false_iff_ne, ne_eq] at hp
  obtain ⟨⟨⟨⟨⟨⟨h1, h2⟩, _⟩, _⟩, _⟩, _⟩, _⟩ := hp
  unfold handle
  simp only [hopen, Bool.false_eq_true, if_false]
  rw [if_neg (by simp [h1, h2])]
  constructor
  · cases ha : (a.getD "" == expectedAuth token) <;> simp_all
    · intro h
      exact absurd h (dispatch_ne_unauthorized st ⟨m, p, a⟩ "Unauthorized")
  · intro h
    simp [h]

/-- Witness for claim C2: a GET request for the mcp path without any
Authorization header is rejected with 401. -/
theorem closed_path_auth_gate_witness :
    handle "secret" initialLoginState ⟨"GET", "/mcp", none⟩ =
      Response.unauthorized "Unauthorized" :=
  (closed_path_auth_gate "secret" initialLoginState "GET" "/mcp" none (by decide)).1.mpr
    (by decide)

/-- Claim C3: isOpenPath is a pure function of the path string and accepts
exactly the members of the exact open-path set together with the paths
carrying the oauth or auth prefix; every other path is closed. -/
theorem isOpenPath_characterization (p : String) :
    isOpenPath p = true ↔
      (p ∈ OPEN_PATHS_EXACT ∨ startsWithStr p "/oauth/" = true ∨
        startsWithStr p "/auth/" = true) := by
  unfold isOpenPath
  split_ifs with h1 h2 h3 <;>
    simp_all [OPEN_PATHS_EXACT, List.contains, List.elem_iff]

/-- Claim C4: after any earlier chunks, one chunk holding at least one URL
followed by URL-free chunks leaves the cache holding exactly the last URL
of that chunk together with its timestamp, discarding all earlier matches
and chunks. -/
theorem capture_last_write_wins (st : LoginState) (pre post : List (String × String))
    (now c u : String) (hu : (extractUrls c).getLast? = some u)
    (hpost : ∀ x ∈ post, extractUrls x.2 = []) :
    processChunks st (pre ++ (now, c) :: post) =
      { latestLoginUrl := some u, latestLoginUrlSeenAt := some now } := by
  have step : ∀ s : LoginState, capture now s c = ⟨some u, some now⟩ := by
    intro s
    unfold capture
    rw [hu]
  calc processChunks st (pre ++ (now, c) :: post)
      = processChunks (capture now (processChunks st pre) c) post := by
        unfold processChunks
        rw [List.foldl_append]
        rfl
    _ = processChunks ⟨some u, some now⟩ post := by rw [step]
    _ = ⟨some u, some now⟩ := processChunks_no_url _ _ hpost

/-- Witness for claim C4: two chunks with different URLs leave only the
second URL in the cache. -/
theorem capture_last_write_wins_witness :
    processChunks initialLoginState
      [("t1", "see https://a.example/x"), ("t2", "go https://b.example/y now")] =
      { latestLoginUrl := some "https://b.example/y", latestLoginUrlSeenAt := some "t2" } :=
  capture_last_write_wins initialLoginState [("t1", "see https://a.example/x")] []
    "t2" "go https://b.example/y now" "https://b.example/y" (by decide) (by simp)

/-- Claim C5: extractUrls is deterministic, returns the empty sequence on
text without URLs, returns the two example URLs in left-to-right order, and
every match it ever returns starts with one of the two schemes and consists
entirely of characters that are neither whitespace nor one of the four
closing delimiters. -/
theorem extractUrls_spec :
    (∀ s : String, extractUrls s = extractUrls s)
    ∧ extractUrls "no urls here" = []
    ∧ extractUrls "see https://a.example/x and https://b.example/y?q=1" =
        ["https://a.example/x", "https://b.example/y?q=1"]
    ∧ (∀ s : String, ∀ m ∈ extractUrls s,
        ("http://".data.isPrefixOf m.data || "https://".data.isPrefixOf m.data) = true
        ∧ m.data.all isUrlChar = true
        ∧ m.data ≠ []) := by
  refine ⟨fun s => rfl, by decide, by decide, ?_⟩
  intro s m hm
  unfold extractUrls at hm
  simp only [List.mem_map] at hm
  obtain ⟨mlist, hmem, hmk⟩ := hm
  obtain ⟨body, hbne, hbchars, hshape⟩ := scanUrlsFuel_shape _ _ _ hmem
  have hdata : m.data = mlist := by rw [← hmk]
  refine ⟨?_, ?_, ?_⟩
  · rw [hdata]
    rcases hshape with h | h <;> rw [h] <;> simp [isPrefixOf_append_self]
  · rw [hdata]
    rcases hshape with h | h <;> rw [h] <;>
      · rw [List.all_append]
        refine (Bool.and_eq_true _ _).mpr ⟨by decide, List.all_eq_true.mpr hbchars⟩
  · rw [hdata]
    rcases hshape with h | h <;> rw [h] <;> simp

/-- Witness for claim C5: the first URL of the two-URL example has the
scheme-and-URL-characters shape. -/
theorem extractUrls_spec_witness :
    ("http://".data.isPrefixOf "https://a.example/x".data ||
      "https://".data.isPrefixOf "https://a.example/x".data) = true
    ∧ "https://a.example/x".data.all isUrlChar = true
    ∧ "https://a.example/x".data ≠ [] :=
  extractUrls_spec.2.2.2 "see https://a.example/x and https://b.example/y?q=1"
    "https://a.example/x" (by decide)

/-- Claim C6: whenever the child process exits, the exit handler logs the
code and moves the gateway to the exited phase with the matching status, or
the default status 1 when the code is null; the gateway never stays
running, serves no request afterward, and has no restart transition. -/
theorem child_exit_policy :
    (∀ c : Int, onChildExit (some c) = GatewayPhase.exited c)
    ∧ onChildExit none = GatewayPhase.exited 1
    ∧ (∀ code : Option Int, onChildExit code ≠ GatewayPhase.running)
    ∧ (∀ code : Option Int, servesRequests (onChildExit code) = false)
    ∧ (∀ c : Int, exitLog (some c) = "mcp-remote exited with code " ++ toString c)
    ∧ exitLog none = "mcp-remote exited with code null" := by
  refine ⟨fun c => rfl, rfl, fun code => by simp [onChildExit], fun code => rfl,
    fun c => rfl, rfl⟩

/-- Counterexample for claim C7: with both upstream URL variables absent
from the environment (and the two genuinely required variables present),
startup does not fail; it succeeds with the hard-coded default URL, so the
upstream endpoint URL is not a required configuration value. -/
theorem upstream_url_not_required_counterexample :
    envMissingUrl "ROVO_MCP_URL" = none ∧ envMissingUrl "ROVO_MCP_SSE_URL" = none ∧
      loadConfig envMissingUrl = Except.ok
        { publicBaseUrl := "https://rovo-gateway.onrender.com", staticBearerToken := "secret",
          port := "8080", mcpRemotePort := "9696",
          rovoMcpUrl := "https://mcp.atlassian.com/v1/mcp" } :=
  ⟨rfl, rfl, rfl⟩

/-- Claim C7 (amended): the upstream endpoint URL is resolved from
ROVO_MCP_URL, falling back to the legacy ROVO_MCP_SSE_URL name, falling
back to a hard-coded default; it is optional, and startup succeeds without
it whenever the two genuinely required variables are present and
nonempty. -/
theorem rovo_url_resolution (env : String → Option String) :
    (∀ v, env "ROVO_MCP_URL" = some v → v ≠ "" → ROVO_MCP_URL env = v)
    ∧ ((env "ROVO_MCP_URL" = none ∨ env "ROVO_MCP_URL" = some "") →
        ∀ w, env "ROVO_MCP_SSE_URL" = some w → w ≠ "" → ROVO_MCP_URL env = w)
    ∧ ((env "ROVO_MCP_URL" = none ∨ env "ROVO_MCP_URL" = some "") →
        (env "ROVO_MCP_SSE_URL" = none ∨ env "ROVO_MCP_SSE_URL" = some "") →
        ROVO_MCP_URL env = "https://mcp.atlassian.com/v1/mcp")
    ∧ (∀ pbu tok, env "PUBLIC_BASE_URL" = some pbu → pbu ≠ "" →
        env "STATIC_BEARER_TOKEN" = some tok → tok ≠ "" →
        loadConfig env = Except.ok
          { publicBaseUrl := pbu, staticBearerToken := tok,
            port := jsOr (env "PORT") "8080",
            mcpRemotePort := jsOr (env "MCP_REMOTE_PORT") "9696",
            rovoMcpUrl := ROVO_MCP_URL env }) := by
  refine ⟨?_, ?_, ?_, ?_⟩
  · intro v hv hne
    simp [ROVO_MCP_URL, jsOr, hv, hne]
  · rintro (h | h) w hw hne <;> simp [ROVO_MCP_URL, jsOr, h, hw, hne]
  · rintro (h | h) (h2 | h2) <;> simp [ROVO_MCP_URL, jsOr, h, h2]
  · intro pbu tok h1 hne1 h2 hne2
    simp [loadConfig, requireEnv, h1, h2, hne1, hne2]

/-- Witness for claim C7: on the environment without either URL variable
the resolution yields the hard-coded default. -/
theorem rovo_url_resolution_witness :
    ROVO_MCP_URL envMissingUrl = "https://mcp.atlassian.com/v1/mcp" :=
  (rovo_url_resolution envMissingUrl).2.2.1 (Or.inl rfl) (Or.inl rfl)

/-- Claim C8: a credentialed GET of the login-link path answers 404 with
the error and hint fields when no URL has been captured yet, and otherwise
answers with the captured URL and its timestamp verbatim. -/
theorem login_link_endpoint (token : String) (st : LoginState) :
    (st.latestLoginUrl = none →
      handle token st ⟨"GET", "/login-link", some (expectedAuth token)⟩ =
        Response.notFound "No login link captured yet."
          "Trigger an MCP connection attempt (call /mcp with your static bearer token), then retry /login-link.")
    ∧ (∀ u, st.latestLoginUrl = some u → u ≠ "" →
        handle token st ⟨"GET", "/login-link", some (expectedAuth token)⟩ =
          Response.loginLink u st.latestLoginUrlSeenAt) := by
  have hopen : isOpenPath "/login-link" = false := by decide
  have hh : handle token st ⟨"GET", "/login-link", some (expectedAuth token)⟩ =
      loginLinkResponse st := by
    simp [handle, dispatch, hopen]
  constructor
  · intro h
    rw [hh]
    unfold loginLinkResponse
    rw [h]
  · intro u hu hne
    rw [hh]
    unfold loginLinkResponse
    rw [hu]
    simp [hne]

/-- Witness for claim C8: after the example chunk is captured, the
login-link query returns that URL with the capture timestamp. -/
theorem login_link_endpoint_witness :
    handle "tk" (capture "t0" initialLoginState "Login at https://id.example/auth?state=1 please")
      ⟨"GET", "/login-link", some (expectedAuth "tk")⟩ =
      Response.loginLink "https://id.example/auth?state=1" (some "t0") := by
  have h := (login_link_endpoint "tk"
      (capture "t0" initialLoginState "Login at https://id.example/auth?state=1 please")).2
    "https://id.example/auth?state=1" (by decide) (by decide)
  exact h.trans (by decide)

/-- Claim C9: the URL and timestamp bindings are null together at startup,
the capture callback preserves that coupling (it assigns both or neither),
and hence every successful login-link response carries a non-null
timestamp. -/
theorem login_state_invariant :
    LoginStateInv initialLoginState
    ∧ (∀ st now chunk, LoginStateInv st → LoginStateInv (capture now st chunk))
    ∧ (∀ st u sa, LoginStateInv st →
        loginLinkResponse st = Response.loginLink u sa → sa ≠ none) := by
  refine ⟨Iff.rfl, ?_, ?_⟩
  · intro st now chunk h
    unfold capture
    split
    · simp [LoginStateInv]
    · exact h
  · intro st u sa hinv hresp
    unfold loginLinkResponse at hresp
    split at hresp
    · exact absurd hresp (by simp)
    next u' heq =>
      split at hresp
      · exact absurd hresp (by simp)
      · intro hsa
        injection hresp with hu hsa2
        have hnone : st.latestLoginUrl = none := hinv.mpr (by rw [hsa2]; exact hsa)
        rw [heq] at hnone
        exact Option.noConfusion hnone

/-- Witness for claim C9: the invariant holds after capturing a chunk with
one URL starting from the initial state. -/
theorem login_state_invariant_witness :
    LoginStateInv (capture "t0" initialLoginState "see https://a.example/x") :=
  login_state_invariant.2.1 initialLoginState "t0" "see https://a.example/x"
    login_state_invariant.1

/-- Claim C10: a chunk in which the scraper finds no URL leaves both cache
bindings exactly as they were. -/
theorem capture_url_free_frame (now : String) (st : LoginState) (chunk : String)
    (h : extractUrls chunk = []) :
    capture now st chunk = st := by
  simp [capture, h]

/-- Witness for claim C10: a URL-free chunk leaves the initial state
untouched. -/
theorem capture_url_free_frame_witness :
    capture "t0" initialLoginState "no urls here" = initialLoginState :=
  capture_url_free_frame "t0" initialLoginState "no urls here" (by decide)

end RovoGateway
